import Mathlib

/-!
Shallow embedding of the `CompetitorBoilerplate` trading strategy
(`competitor_template.py`).

Python floats are modelled as exact rationals (`ℚ`).  The per-symbol
mutable dictionaries (`volatility_memory`, `mid_price_memory`,
`ema_memory`) become an explicit `SymbolState` record threaded through
every method: each method takes the state for the symbol it is called
on and returns the (possibly updated) state.  The order-book snapshot
returned by the external `get_order_book_snapshot` is an argument of
type `Option Snapshot` (`none` models an absent / falsy snapshot).
Order submissions through `create_limit_order` are collected as the
list of submitted orders (the returned order id is ignored by the
source — fire-and-forget).
-/

/-- An order-book snapshot: `bids` and `asks` are `(price, size)`
    lists, best level first. -/
structure Snapshot where
  bids : List (ℚ × ℚ)
  asks : List (ℚ × ℚ)
  deriving DecidableEq

/-- Side of an order. -/
inductive Side where
  | buy
  | sell
  deriving DecidableEq

/-- A limit order submitted via `create_limit_order` (the symbol is
    implicit: all functions below act on a single symbol). -/
structure Order where
  price : ℚ
  size : ℚ
  side : Side
  deriving DecidableEq

/-- Per-symbol mutable state of the strategy: the entries
    `volatility_memory[symbol]`, `mid_price_memory[symbol]` and
    `ema_memory[symbol]` of the Python dictionaries. -/
structure SymbolState where
  volatility_memory : ℚ
  mid_price_memory : Option ℚ
  ema_memory : Option ℚ
  deriving DecidableEq

/-- The state established by `__init__` for every symbol:
    `volatility_memory = 0.0`, `mid_price_memory = None`,
    `ema_memory = None`. -/
def initState : SymbolState :=
  { volatility_memory := 0, mid_price_memory := none, ema_memory := none }

/-- `get_mid_price` (lines 53-64): `None` when the snapshot is absent
    or either side is empty, otherwise the average of the best bid and
    best ask prices. -/
def get_mid_price (snap : Option Snapshot) : Option ℚ :=
  match snap with
  | none => none
  | some s =>
    match s.bids, s.asks with
    | [], _ => none
    | _, [] => none
    | b :: _, a :: _ => some ((b.1 + a.1) / 2)

/-- `calculate_volatility` (lines 66-79).  Returns the volatility value
    together with the updated state.  (The unused `window=10` parameter
    of the source is omitted: it has no effect.) -/
def calculate_volatility (snap : Option Snapshot) (st : SymbolState) :
    ℚ × SymbolState :=
  match get_mid_price snap with
  | none => (st.volatility_memory, st)
  | some mid_price =>
    match st.mid_price_memory with
    | none => (0, { st with mid_price_memory := some mid_price })
    | some last_mid =>
      let price_change := |mid_price - last_mid|
      (price_change,
        { st with
            volatility_memory := price_change
            mid_price_memory := some mid_price })

/-- Sum of the resting sizes over the best five levels of one side
    (lines 89-90: `sum([b[1] for b in bids[:5]])`). -/
def top5_size_sum (side : List (ℚ × ℚ)) : ℚ :=
  ((side.take 5).map Prod.snd).sum

/-- `calculate_order_book_imbalance` (lines 81-95).  The Python method
    never writes the per-symbol dictionaries, so the state is returned
    unchanged. -/
def calculate_order_book_imbalance (snap : Option Snapshot)
    (st : SymbolState) : ℚ × SymbolState :=
  match snap with
  | none => (0, st)
  | some s =>
    let total_bid_size := top5_size_sum s.bids
    let total_ask_size := top5_size_sum s.asks
    if total_bid_size + total_ask_size = 0 then (0, st)
    else
      ((total_bid_size - total_ask_size) / (total_bid_size + total_ask_size),
        st)

/-- `adaptive_pennying_strategy` (lines 97-127).  Returns the list of
    submitted limit orders and the updated state.  `get_mid_price` is
    called by the source but its result is unused and it has no side
    effect, so the call is dropped; `calculate_volatility` is kept for
    its state update. -/
def adaptive_pennying_strategy (snap : Option Snapshot) (st : SymbolState) :
    List Order × SymbolState :=
  match snap with
  | none => ([], st)
  | some s =>
    match s.bids, s.asks with
    | [], _ => ([], st)
    | _, [] => ([], st)
    | b :: _, a :: _ =>
      let best_bid := b.1
      let best_ask := a.1
      let volRes := calculate_volatility snap st
      let imbRes := calculate_order_book_imbalance snap volRes.2
      let imbalance := imbRes.1
      let levels :=
        if imbalance > 0 then
          ([best_bid + 0.02, best_bid + 0.03], [best_ask - 0.01])
        else if imbalance < 0 then
          ([best_bid + 0.01], [best_ask - 0.02, best_ask - 0.03])
        else
          ([best_bid + 0.01, best_bid + 0.02],
           [best_ask - 0.01, best_ask - 0.02])
      (levels.1.map (fun p => Order.mk p 5 Side.buy) ++
        levels.2.map (fun p => Order.mk p 5 Side.sell), imbRes.2)

/-- `volatility_adaptive_levels` (lines 129-155): three deep bid and
    three deep ask levels, spaced by
    `0.05 * (1 + volatility * 0.1)`, each of size 10. -/
def volatility_adaptive_levels (snap : Option Snapshot) (st : SymbolState) :
    List Order × SymbolState :=
  match snap with
  | none => ([], st)
  | some s =>
    match s.bids, s.asks with
    | [], _ => ([], st)
    | _, [] => ([], st)
    | b :: _, a :: _ =>
      let best_bid := b.1
      let best_ask := a.1
      let volRes := calculate_volatility snap st
      let volatility := volRes.1
      let base_level_distance : ℚ := 0.05
      let level_factor := 1 + volatility * 0.1
      let level_distance := base_level_distance * level_factor
      let deep_bid_levels :=
        ([1, 2, 3] : List ℚ).map (fun i => best_bid - level_distance * i)
      let deep_ask_levels :=
        ([1, 2, 3] : List ℚ).map (fun i => best_ask + level_distance * i)
      (deep_bid_levels.map (fun p => Order.mk p 10 Side.buy) ++
        deep_ask_levels.map (fun p => Order.mk p 10 Side.sell), volRes.2)

/-- `smart_order_sizing` (lines 158-169): base size 10 scaled by the
    computed volatility, truncated to an integer, minimum 1.  (Python
    `int()` truncates towards zero; every branch value here is
    non-negative, where truncation and `Int.floor` coincide.) -/
def smart_order_sizing (snap : Option Snapshot) (st : SymbolState) :
    ℤ × SymbolState :=
  let volRes := calculate_volatility snap st
  let volatility := volRes.1
  let base_order_size : ℚ := 10
  let order_size :=
    if volatility < 0.5 then base_order_size * 1.5
    else if volatility > 2.0 then base_order_size * 0.5
    else base_order_size
  (max 1 ⌊order_size⌋, volRes.2)

/-- `detect_large_orders` (lines 171-190): join just inside a resting
    size strictly greater than 50 at the best level, each side
    independently.  The method never writes the per-symbol
    dictionaries, so the state is returned unchanged. -/
def detect_large_orders (snap : Option Snapshot) (st : SymbolState) :
    List Order × SymbolState :=
  match snap with
  | none => ([], st)
  | some s =>
    match s.bids, s.asks with
    | [], _ => ([], st)
    | _, [] => ([], st)
    | b :: _, a :: _ =>
      let large_order_threshold : ℚ := 50
      let buys :=
        if b.2 > large_order_threshold then
          [Order.mk (b.1 + 0.01) 5 Side.buy] else []
      let sells :=
        if a.2 > large_order_threshold then
          [Order.mk (a.1 - 0.01) 5 Side.sell] else []
      (buys ++ sells, st)

/-! ### Helper lemmas about state threading -/

/-- `calculate_order_book_imbalance` never changes the state. -/
lemma imbalance_snd (snap : Option Snapshot) (st : SymbolState) :
    (calculate_order_book_imbalance snap st).2 = st := by
  cases snap
  · rfl
  · simp only [calculate_order_book_imbalance]
    split <;> rfl

/-- The imbalance value does not depend on the state argument. -/
lemma imbalance_fst_congr (snap : Option Snapshot) (st st' : SymbolState) :
    (calculate_order_book_imbalance snap st).1 =
      (calculate_order_book_imbalance snap st').1 := by
  cases snap
  · rfl
  · simp only [calculate_order_book_imbalance]
    split <;> rfl

/-- `detect_large_orders` never changes the state. -/
lemma detect_large_orders_snd (snap : Option Snapshot) (st : SymbolState) :
    (detect_large_orders snap st).2 = st := by
  rcases snap with _ | ⟨bids, asks⟩
  · rfl
  · rcases bids with _ | ⟨b, bt⟩ <;> rcases asks with _ | ⟨a, at'⟩ <;> rfl

/-- `adaptive_pennying_strategy` changes the state exactly as
    `calculate_volatility` does. -/
lemma adaptive_pennying_strategy_snd (snap : Option Snapshot)
    (st : SymbolState) :
    (adaptive_pennying_strategy snap st).2 = (calculate_volatility snap st).2 := by
  rcases snap with _ | ⟨bids, asks⟩
  · rfl
  · rcases bids with _ | ⟨b, bt⟩ <;> rcases asks with _ | ⟨a, at'⟩
    · rfl
    · rfl
    · simp [adaptive_pennying_strategy, calculate_volatility, get_mid_price]
    · simp only [adaptive_pennying_strategy]
      rw [imbalance_snd]

/-- `volatility_adaptive_levels` changes the state exactly as
    `calculate_volatility` does. -/
lemma volatility_adaptive_levels_snd (snap : Option Snapshot)
    (st : SymbolState) :
    (volatility_adaptive_levels snap st).2 = (calculate_volatility snap st).2 := by
  rcases snap with _ | ⟨bids, asks⟩
  · rfl
  · rcases bids with _ | ⟨b, bt⟩ <;> rcases asks with _ | ⟨a, at'⟩
    · rfl
    · rfl
    · simp [volatility_adaptive_levels, calculate_volatility, get_mid_price]
    · rfl

/-- `smart_order_sizing` changes the state exactly as
    `calculate_volatility` does. -/
lemma smart_order_sizing_snd (snap : Option Snapshot) (st : SymbolState) :
    (smart_order_sizing snap st).2 = (calculate_volatility snap st).2 := rfl

/-- `calculate_volatility` keeps `volatility_memory` non-negative. -/
lemma calculate_volatility_vol_nonneg (snap : Option Snapshot)
    (st : SymbolState) (h : 0 ≤ st.volatility_memory) :
    0 ≤ ((calculate_volatility snap st).2).volatility_memory := by
  simp only [calculate_volatility]
  rcases get_mid_price snap with _ | m
  · exact h
  · rcases st.mid_price_memory with _ | lm
    · exact h
    · exact abs_nonneg _

/-- A top-5 size sum of levels with non-negative sizes is
    non-negative. -/
lemma top5_size_sum_nonneg (l : List (ℚ × ℚ)) (h : ∀ p ∈ l, 0 ≤ p.2) :
    0 ≤ top5_size_sum l := by
  apply List.sum_nonneg
  intro x hx
  simp only [List.mem_map] at hx
  obtain ⟨p, hp, rfl⟩ := hx
  exact h p (List.take_subset _ _ hp)

/-! ### Reachability of states

One step is one call of any method of the class on this symbol, with an
arbitrary snapshot returned by the exchange; a state is reachable when
it arises from the `__init__` state by some sequence of calls. -/

/-- One method call on the symbol, with an arbitrary snapshot. -/
inductive Step : SymbolState → SymbolState → Prop where
  | volatility (snap : Option Snapshot) (st : SymbolState) :
      Step st (calculate_volatility snap st).2
  | imbalance (snap : Option Snapshot) (st : SymbolState) :
      Step st (calculate_order_book_imbalance snap st).2
  | pennying (snap : Option Snapshot) (st : SymbolState) :
      Step st (adaptive_pennying_strategy snap st).2
  | deepLevels (snap : Option Snapshot) (st : SymbolState) :
      Step st (volatility_adaptive_levels snap st).2
  | sizing (snap : Option Snapshot) (st : SymbolState) :
      Step st (smart_order_sizing snap st).2
  | largeOrders (snap : Option Snapshot) (st : SymbolState) :
      Step st (detect_large_orders snap st).2

/-- States reachable from the `__init__` state by method calls. -/
def Reachable (st : SymbolState) : Prop :=
  Relation.ReflTransGen Step initState st

/-! ### Claim theorems -/

/-- C2: for every symbol with an observable mid-price,
    `calculate_volatility` records the current mid-price and returns
    `0.0` when no baseline exists, and otherwise returns
    `|current_mid - last_mid|`, stores it as the new volatility, and
    updates the recorded mid-price. -/
theorem C2_volatility_update (snap : Option Snapshot) (st : SymbolState)
    (m : ℚ) (hm : get_mid_price snap = some m) :
    (st.mid_price_memory = none →
      calculate_volatility snap st =
        (0, { st with mid_price_memory := some m })) ∧
    (∀ lm, st.mid_price_memory = some lm →
      calculate_volatility snap st =
        (|m - lm|,
         { st with
             volatility_memory := |m - lm|
             mid_price_memory := some m })) := by
  constructor
  · intro h
    simp [calculate_volatility, hm, h]
  · intro lm h
    simp [calculate_volatility, hm, h]

/-- Witness for C2 at a concrete cold-start input: book
    `bids=[(10,1)]`, `asks=[(12,1)]`, mid-price 11, fresh state. -/
theorem C2_volatility_update_witness :
    get_mid_price (some (Snapshot.mk [((10 : ℚ), 1)] [((12 : ℚ), 1)])) =
      some 11 ∧
    initState.mid_price_memory = none ∧
    calculate_volatility (some (Snapshot.mk [((10 : ℚ), 1)] [((12 : ℚ), 1)]))
      initState = (0, { initState with mid_price_memory := some 11 }) := by
  have hm : get_mid_price
      (some (Snapshot.mk [((10 : ℚ), 1)] [((12 : ℚ), 1)])) = some 11 := by
    norm_num [get_mid_price]
  exact ⟨hm, rfl, (C2_volatility_update _ initState 11 hm).1 rfl⟩

/-- C3: when the mid-price is unobservable (absent snapshot or an empty
    side), `calculate_volatility` returns the stored volatility with
    the state unchanged, and all three sub-strategies submit no orders
    and leave the state unchanged. -/
theorem C3_missing_book (snap : Option Snapshot) (st : SymbolState)
    (hm : get_mid_price snap = none) :
    calculate_volatility snap st = (st.volatility_memory, st) ∧
    (adaptive_pennying_strategy snap st).1 = [] ∧
    (adaptive_pennying_strategy snap st).2 = st ∧
    (volatility_adaptive_levels snap st).1 = [] ∧
    (volatility_adaptive_levels snap st).2 = st ∧
    (detect_large_orders snap st).1 = [] ∧
    (detect_large_orders snap st).2 = st := by
  refine ⟨by simp [calculate_volatility, hm], ?_⟩
  rcases snap with _ | ⟨bids, asks⟩
  · exact ⟨rfl, rfl, rfl, rfl, rfl, rfl⟩
  · rcases bids with _ | ⟨b, bt⟩ <;> rcases asks with _ | ⟨a, at'⟩
    · exact ⟨rfl, rfl, rfl, rfl, rfl, rfl⟩
    · exact ⟨rfl, rfl, rfl, rfl, rfl, rfl⟩
    · exact ⟨rfl, rfl, rfl, rfl, rfl, rfl⟩
    · simp [get_mid_price] at hm

/-- Witness for C3 at a concrete input: empty bid side, non-trivial
    prior state — stale volatility 2 is returned, nothing changes, no
    orders. -/
theorem C3_missing_book_witness :
    get_mid_price (some (Snapshot.mk [] [((10 : ℚ), 5)])) = none ∧
    calculate_volatility (some (Snapshot.mk [] [((10 : ℚ), 5)]))
      (SymbolState.mk 2 (some 9) none) = (2, SymbolState.mk 2 (some 9) none) ∧
    (adaptive_pennying_strategy (some (Snapshot.mk [] [((10 : ℚ), 5)]))
      (SymbolState.mk 2 (some 9) none)).1 = [] ∧
    (volatility_adaptive_levels (some (Snapshot.mk [] [((10 : ℚ), 5)]))
      (SymbolState.mk 2 (some 9) none)).1 = [] ∧
    (detect_large_orders (some (Snapshot.mk [] [((10 : ℚ), 5)]))
      (SymbolState.mk 2 (some 9) none)).1 = [] := by
  have hm : get_mid_price (some (Snapshot.mk [] [((10 : ℚ), 5)])) = none := rfl
  have h := C3_missing_book _ (SymbolState.mk 2 (some 9) none) hm
  exact ⟨hm, h.1, h.2.1, h.2.2.2.1, h.2.2.2.2.2.1⟩

/-- C9: in every reachable state, the stored volatility is
    non-negative — it starts at `0.0` and every update writes an
    absolute value. -/
theorem C9_volatility_nonneg (st : SymbolState) (h : Reachable st) :
    0 ≤ st.volatility_memory := by
  induction h with
  | refl => norm_num [initState]
  | tail _ hstep ih =>
    cases hstep with
    | volatility snap => exact calculate_volatility_vol_nonneg snap _ ih
    | imbalance snap => rw [imbalance_snd]; exact ih
    | pennying snap =>
      rw [adaptive_pennying_strategy_snd]
      exact calculate_volatility_vol_nonneg snap _ ih
    | deepLevels snap =>
      rw [volatility_adaptive_levels_snd]
      exact calculate_volatility_vol_nonneg snap _ ih
    | sizing snap =>
      rw [smart_order_sizing_snd]
      exact calculate_volatility_vol_nonneg snap _ ih
    | largeOrders snap => rw [detect_large_orders_snd]; exact ih

/-- Witness for C9: a state reached by one volatility call on the
    initial state satisfies the invariant. -/
theorem C9_volatility_nonneg_witness :
    Reachable (calculate_volatility
      (some (Snapshot.mk [((10 : ℚ), 1)] [((12 : ℚ), 1)])) initState).2 ∧
    0 ≤ ((calculate_volatility
      (some (Snapshot.mk [((10 : ℚ), 1)] [((12 : ℚ), 1)])) initState).2).volatility_memory := by
  have hr : Reachable (calculate_volatility
      (some (Snapshot.mk [((10 : ℚ), 1)] [((12 : ℚ), 1)])) initState).2 :=
    Relation.ReflTransGen.single (Step.volatility _ _)
  exact ⟨hr, C9_volatility_nonneg _ hr⟩

/-- C10: `detect_large_orders` and `calculate_order_book_imbalance`
    leave the per-symbol state unchanged, for every snapshot and every
    state. -/
theorem C10_read_only_ops (snap : Option Snapshot) (st : SymbolState) :
    (detect_large_orders snap st).2 = st ∧
    (calculate_order_book_imbalance snap st).2 = st :=
  ⟨detect_large_orders_snd snap st, imbalance_snd snap st⟩

/-- C1: with non-empty bids and asks, `adaptive_pennying_strategy`
    submits exactly the size-5 limit orders selected by the sign of the
    order-book imbalance: `imbalance > 0` — buys at `best_bid+0.02` and
    `best_bid+0.03`, one sell at `best_ask-0.01`; `imbalance < 0` — one
    buy at `best_bid+0.01`, sells at `best_ask-0.02` and
    `best_ask-0.03`; `imbalance = 0` — buys at `best_bid+0.01`,
    `best_bid+0.02` and sells at `best_ask-0.01`, `best_ask-0.02`; and
    no other orders. -/
theorem C1_pennying_levels (s : Snapshot) (st : SymbolState)
    (b a : ℚ × ℚ) (bt at' : List (ℚ × ℚ))
    (hb : s.bids = b :: bt) (ha : s.asks = a :: at') :
    (adaptive_pennying_strategy (some s) st).1 =
      if (calculate_order_book_imbalance (some s) st).1 > 0 then
        [Order.mk (b.1 + 0.02) 5 Side.buy, Order.mk (b.1 + 0.03) 5 Side.buy,
         Order.mk (a.1 - 0.01) 5 Side.sell]
      else if (calculate_order_book_imbalance (some s) st).1 < 0 then
        [Order.mk (b.1 + 0.01) 5 Side.buy,
         Order.mk (a.1 - 0.02) 5 Side.sell, Order.mk (a.1 - 0.03) 5 Side.sell]
      else
        [Order.mk (b.1 + 0.01) 5 Side.buy, Order.mk (b.1 + 0.02) 5 Side.buy,
         Order.mk (a.1 - 0.01) 5 Side.sell, Order.mk (a.1 - 0.02) 5
           Side.sell] := by
  obtain ⟨bids, asks⟩ := s
  dsimp only at hb ha
  subst hb
  subst ha
  simp only [adaptive_pennying_strategy]
  rw [imbalance_fst_congr _ _ st]
  split_ifs <;> simp

/-- Witness for C1, the spec's positive-imbalance scenario:
    `bids=[(10.00,20)]`, `asks=[(10.10,5)]` — imbalance is positive, so
    buys at 10.02 and 10.03 and one sell at 10.09, each of size 5. -/
theorem C1_pennying_levels_witness :
    (Snapshot.mk [((10 : ℚ), 20)] [((10.10 : ℚ), 5)]).bids =
      ((10 : ℚ), 20) :: [] ∧
    (Snapshot.mk [((10 : ℚ), 20)] [((10.10 : ℚ), 5)]).asks =
      ((10.10 : ℚ), 5) :: [] ∧
    (adaptive_pennying_strategy
      (some (Snapshot.mk [((10 : ℚ), 20)] [((10.10 : ℚ), 5)])) initState).1 =
      [Order.mk 10.02 5 Side.buy, Order.mk 10.03 5 Side.buy,
       Order.mk 10.09 5 Side.sell] := by
  refine ⟨rfl, rfl, ?_⟩
  have h := C1_pennying_levels
    (Snapshot.mk [((10 : ℚ), 20)] [((10.10 : ℚ), 5)]) initState
    ((10 : ℚ), 20) ((10.10 : ℚ), 5) [] [] rfl rfl
  rw [h]
  have himb : (calculate_order_book_imbalance
      (some (Snapshot.mk [((10 : ℚ), 20)] [((10.10 : ℚ), 5)])) initState).1 =
      3 / 5 := by
    norm_num [calculate_order_book_imbalance, top5_size_sum]
  rw [himb]
  norm_num [Order.mk.injEq]

/-- C4: for non-negative resting sizes, the imbalance is
    `(bid_sum - ask_sum) / (bid_sum + ask_sum)` over the best five
    levels per side, lies in `[-1, 1]`, and is exactly `0` when both
    sums are zero or the snapshot is unavailable. -/
theorem C4_imbalance_props (s : Snapshot) (st : SymbolState)
    (hb : ∀ p ∈ s.bids, 0 ≤ p.2) (ha : ∀ p ∈ s.asks, 0 ≤ p.2) :
    (top5_size_sum s.bids + top5_size_sum s.asks ≠ 0 →
      (calculate_order_book_imbalance (some s) st).1 =
        (top5_size_sum s.bids - top5_size_sum s.asks) /
          (top5_size_sum s.bids + top5_size_sum s.asks)) ∧
    -1 ≤ (calculate_order_book_imbalance (some s) st).1 ∧
    (calculate_order_book_imbalance (some s) st).1 ≤ 1 ∧
    (top5_size_sum s.bids = 0 ∧ top5_size_sum s.asks = 0 →
      (calculate_order_book_imbalance (some s) st).1 = 0) ∧
    (calculate_order_book_imbalance none st).1 = 0 := by
  have hbn := top5_size_sum_nonneg _ hb
  have han := top5_size_sum_nonneg _ ha
  by_cases h0 : top5_size_sum s.bids + top5_size_sum s.asks = 0
  · have hz : (calculate_order_book_imbalance (some s) st).1 = 0 := by
      simp [calculate_order_book_imbalance, h0]
    refine ⟨fun hne => absurd h0 hne, ?_, ?_, fun _ => hz, rfl⟩
    · rw [hz]; norm_num
    · rw [hz]; norm_num
  · have hpos : 0 < top5_size_sum s.bids + top5_size_sum s.asks :=
      lt_of_le_of_ne (by linarith) (Ne.symm h0)
    have hval : (calculate_order_book_imbalance (some s) st).1 =
        (top5_size_sum s.bids - top5_size_sum s.asks) /
          (top5_size_sum s.bids + top5_size_sum s.asks) := by
      simp [calculate_order_book_imbalance, h0]
    refine ⟨fun _ => hval, ?_, ?_, fun hz => absurd (by rw [hz.1, hz.2]; ring) h0,
      rfl⟩
    · rw [hval, le_div_iff₀ hpos]
      linarith
    · rw [hval, div_le_one hpos]
      linarith

/-- Witness for C4 on the book `bids=[(10,20)]`, `asks=[(10.10,5)]`:
    sizes are non-negative, the imbalance is `3/5` and lies in
    `[-1, 1]`. -/
theorem C4_imbalance_props_witness :
    (∀ p ∈ (Snapshot.mk [((10 : ℚ), 20)] [((10.10 : ℚ), 5)]).bids,
      0 ≤ p.2) ∧
    (∀ p ∈ (Snapshot.mk [((10 : ℚ), 20)] [((10.10 : ℚ), 5)]).asks,
      0 ≤ p.2) ∧
    -1 ≤ (calculate_order_book_imbalance
      (some (Snapshot.mk [((10 : ℚ), 20)] [((10.10 : ℚ), 5)])) initState).1 ∧
    (calculate_order_book_imbalance
      (some (Snapshot.mk [((10 : ℚ), 20)] [((10.10 : ℚ), 5)])) initState).1
      ≤ 1 := by
  have hb : ∀ p ∈ (Snapshot.mk [((10 : ℚ), 20)] [((10.10 : ℚ), 5)]).bids,
      0 ≤ p.2 := by norm_num
  have ha : ∀ p ∈ (Snapshot.mk [((10 : ℚ), 20)] [((10.10 : ℚ), 5)]).asks,
      0 ≤ p.2 := by norm_num
  have h := C4_imbalance_props _ initState hb ha
  exact ⟨hb, ha, h.2.1, h.2.2.1⟩

/-- C5: with a best bid and a best ask, `volatility_adaptive_levels`
    submits exactly three size-10 limit buys at
    `best_bid - level_distance * i` and three size-10 limit sells at
    `best_ask + level_distance * i`, `i ∈ {1,2,3}`, with
    `level_distance = 0.05 * (1 + volatility * 0.1)`. -/
theorem C5_deep_levels (s : Snapshot) (st : SymbolState) (b a : ℚ × ℚ)
    (bt at' : List (ℚ × ℚ)) (ld : ℚ)
    (hb : s.bids = b :: bt) (ha : s.asks = a :: at')
    (hld : ld = 0.05 * (1 + (calculate_volatility (some s) st).1 * 0.1)) :
    (volatility_adaptive_levels (some s) st).1 =
      [Order.mk (b.1 - ld * 1) 10 Side.buy,
       Order.mk (b.1 - ld * 2) 10 Side.buy,
       Order.mk (b.1 - ld * 3) 10 Side.buy,
       Order.mk (a.1 + ld * 1) 10 Side.sell,
       Order.mk (a.1 + ld * 2) 10 Side.sell,
       Order.mk (a.1 + ld * 3) 10 Side.sell] := by
  obtain ⟨bids, asks⟩ := s
  dsimp only at hb ha
  subst hb
  subst ha
  subst hld
  simp [volatility_adaptive_levels]

/-- Witness for C5: `bids=[(10,1)]`, `asks=[(10.10,1)]`, fresh state —
    cold-start volatility 0, so `level_distance = 0.05` and the levels
    are 9.95, 9.90, 9.85 and 10.15, 10.20, 10.25, each size 10. -/
theorem C5_deep_levels_witness :
    (Snapshot.mk [((10 : ℚ), 1)] [((10.10 : ℚ), 1)]).bids =
      ((10 : ℚ), 1) :: [] ∧
    ((0.05 : ℚ)) = 0.05 * (1 + (calculate_volatility
      (some (Snapshot.mk [((10 : ℚ), 1)] [((10.10 : ℚ), 1)])) initState).1
        * 0.1) ∧
    (volatility_adaptive_levels
      (some (Snapshot.mk [((10 : ℚ), 1)] [((10.10 : ℚ), 1)])) initState).1 =
      [Order.mk 9.95 10 Side.buy, Order.mk 9.90 10 Side.buy,
       Order.mk 9.85 10 Side.buy, Order.mk 10.15 10 Side.sell,
       Order.mk 10.20 10 Side.sell, Order.mk 10.25 10 Side.sell] := by
  have hv : (calculate_volatility
      (some (Snapshot.mk [((10 : ℚ), 1)] [((10.10 : ℚ), 1)])) initState).1 =
      0 := by
    norm_num [calculate_volatility, get_mid_price, initState]
  have hld : ((0.05 : ℚ)) = 0.05 * (1 + (calculate_volatility
      (some (Snapshot.mk [((10 : ℚ), 1)] [((10.10 : ℚ), 1)])) initState).1
        * 0.1) := by
    rw [hv]; norm_num
  refine ⟨rfl, hld, ?_⟩
  have h := C5_deep_levels
    (Snapshot.mk [((10 : ℚ), 1)] [((10.10 : ℚ), 1)]) initState
    ((10 : ℚ), 1) ((10.10 : ℚ), 1) [] [] 0.05 rfl rfl hld
  rw [h]
  norm_num [Order.mk.injEq]

/-- C6: with a best bid and a best ask, `detect_large_orders` submits a
    size-5 limit buy at `best_bid + 0.01` exactly when the best bid
    size exceeds 50, and independently a size-5 limit sell at
    `best_ask - 0.01` exactly when the best ask size exceeds 50 (both
    may fire; a size of exactly 50 fires neither). -/
theorem C6_large_orders (s : Snapshot) (st : SymbolState) (b a : ℚ × ℚ)
    (bt at' : List (ℚ × ℚ))
    (hb : s.bids = b :: bt) (ha : s.asks = a :: at') :
    (detect_large_orders (some s) st).1 =
      (if 50 < b.2 then [Order.mk (b.1 + 0.01) 5 Side.buy] else []) ++
      (if 50 < a.2 then [Order.mk (a.1 - 0.01) 5 Side.sell] else []) := by
  obtain ⟨bids, asks⟩ := s
  dsimp only at hb ha
  subst hb
  subst ha
  rfl

/-- Witness for C6, the spec's scenario: `bids=[(10.00,60)]`,
    `asks=[(10.10,10)]` — one buy at 10.01 size 5, no sell. -/
theorem C6_large_orders_witness :
    (Snapshot.mk [((10 : ℚ), 60)] [((10.10 : ℚ), 10)]).bids =
      ((10 : ℚ), 60) :: [] ∧
    (detect_large_orders
      (some (Snapshot.mk [((10 : ℚ), 60)] [((10.10 : ℚ), 10)])) initState).1 =
      [Order.mk 10.01 5 Side.buy] := by
  refine ⟨rfl, ?_⟩
  have h := C6_large_orders
    (Snapshot.mk [((10 : ℚ), 60)] [((10.10 : ℚ), 10)]) initState
    ((10 : ℚ), 60) ((10.10 : ℚ), 10) [] [] rfl rfl
  rw [h]
  norm_num [Order.mk.injEq]

/-- C7 counterexample: `smart_order_sizing` is NOT state-pure.  On the
    book `bids=[(10,1)]`, `asks=[(12,1)]` (mid-price 11) with recorded
    baseline mid-price 10, the call rewrites the recorded mid-price to
    11 and the recorded volatility to 1. -/
theorem C7_counterexample :
    ¬ (smart_order_sizing (some (Snapshot.mk [((10 : ℚ), 1)] [((12 : ℚ), 1)]))
        (SymbolState.mk 0 (some 10) none)).2 =
      SymbolState.mk 0 (some 10) none := by
  norm_num [smart_order_sizing, calculate_volatility, get_mid_price,
    SymbolState.mk.injEq]

/-- C7 (amended): `smart_order_sizing` submits no orders, but it is not
    state-pure — it invokes the volatility computation, so it updates
    the per-symbol state exactly as `calculate_volatility` does (the
    state is unchanged only when the mid-price is unobservable). -/
theorem C7_sizing_state_effect (snap : Option Snapshot) (st : SymbolState) :
    (smart_order_sizing snap st).2 = (calculate_volatility snap st).2 :=
  smart_order_sizing_snd snap st

/-- C8: `smart_order_sizing` returns the floor of base size 10 scaled
    by the computed volatility — 15 below 0.5, 5 above 2.0, 10
    otherwise — and its result is always an integer at least 1. -/
theorem C8_sizing_value (snap : Option Snapshot) (st : SymbolState) :
    ((calculate_volatility snap st).1 < 0.5 →
      (smart_order_sizing snap st).1 = 15) ∧
    (2.0 < (calculate_volatility snap st).1 →
      (smart_order_sizing snap st).1 = 5) ∧
    (0.5 ≤ (calculate_volatility snap st).1 →
      (calculate_volatility snap st).1 ≤ 2.0 →
      (smart_order_sizing snap st).1 = 10) ∧
    1 ≤ (smart_order_sizing snap st).1 := by
  simp only [smart_order_sizing]
  refine ⟨?_, ?_, ?_, ?_⟩
  · intro h
    rw [if_pos h]
    norm_num
  · intro h
    rw [if_neg (by linarith), if_pos h]
    norm_num
  · intro h1 h2
    rw [if_neg (by linarith), if_neg (by linarith)]
    norm_num
  · split_ifs <;> norm_num

/-- Witness for C8: with no snapshot and the fresh state, the computed
    volatility is the stored 0 (below 0.5), and the size is 15. -/
theorem C8_sizing_value_witness :
    (calculate_volatility none initState).1 < 0.5 ∧
    (smart_order_sizing none initState).1 = 15 := by
  have hv : (calculate_volatility none initState).1 < 0.5 := by
    norm_num [calculate_volatility, get_mid_price, initState]
  exact ⟨hv, (C8_sizing_value none initState).1 hv⟩
